import Mathlib

/-!
Verification development for the wekan-scanner repository.

Shallow embedding of the core components described in the specification:
the operation registry (src/scanner/registry.py), the signature adapter and
command dispatcher (src/scanner/cli.py), and the response resolver
(src/scanner/client.py).  Python dictionaries are modelled as association
lists preserving insertion order (Python 3.7+ dict semantics); machine-level
concerns do not arise.  Asynchronous execution is modelled by its observable
effect only: each operation, when invoked, yields a result value.
-/

/-! ## JSON values

Model of the parsed JSON bodies handled by `scanner/client.py`.  No recursion
into the tree is ever needed by the embedded code, which only inspects the
top level of a response body. -/

inductive JValue where
  | null
  | bool (b : Bool)
  | num (n : Int)
  | str (s : String)
  | arr (elems : List JValue)
  | obj (fields : List (String × JValue))

/-- Lookup in a Python dict modelled as an association list
(the first binding for a key is its value; keys are unique in dicts built
by the embedded code). -/
def dictLookup {α : Type} (d : List (String × α)) (k : String) : Option α :=
  (d.find? (fun p => p.1 = k)).map (fun p => p.2)

/-- Python dict assignment `d[k] = v`: replaces the value at an existing key
in place, otherwise appends the new binding (insertion-order semantics). -/
def dictInsert {α : Type} : List (String × α) → String → α → List (String × α)
  | [], k, v => [(k, v)]
  | (k2, v2) :: rest, k, v =>
      if k2 = k then (k, v) :: rest else (k2, v2) :: dictInsert rest k v

/-! ## Response resolver (src/scanner/client.py, class APIResponse)

`self._json` is an ordinary dict after `__init__` (annotated
`dict[str, Any]` in the source), modelled as an association list of fields.
Model construction (`model_cls(**data)`) is abstracted as a total function
`construct : JValue → α`; construction failures are a downstream concern the
claims treat abstractly. -/

/-- Embedding of `APIResponse.as_model` (client.py lines 71-92): try the
candidate keys in order against the top-level mapping; on the first key
present construct the model from the value under it; if the key list is
empty or no key is present, construct from the top-level mapping itself.
The Python loop `for key in keys: if key in self.json: return ...` followed
by the fallthrough `return model_cls(**self.json)` is the recursion below. -/
def as_model {α : Type} (fields : List (String × JValue)) (construct : JValue → α) :
    List String → α
  | [] => construct (JValue.obj fields)
  | k :: ks =>
      match dictLookup fields k with
      | some v => construct v
      | none => as_model fields construct ks

/-- Embedding of `APIResponse.as_list` (client.py lines 94-107):
`items = self.json.get(key, []); return [model_cls(**item) for item in items]`.
When the key is absent the default `[]` makes the comprehension empty.  When
the value under the key is not a sequence of mappings the comprehension
raises in Python (TypeError from iteration or from `**` unpacking), modelled
as `Except.error`; an empty dict or empty string iterates zero times and
yields `[]`. -/
def as_list {α : Type} (fields : List (String × JValue)) (construct : JValue → α)
    (key : String) : Except Unit (List α) :=
  match dictLookup fields key with
  | none => Except.ok []
  | some (JValue.arr xs) => Except.ok (xs.map construct)
  | some (JValue.obj fs) => if fs.isEmpty then Except.ok [] else Except.error ()
  | some (JValue.str s) => if s.isEmpty then Except.ok [] else Except.error ()
  | some _ => Except.error ()

/-- The error raised by `APIResponse.__init__` when a successfully parsed
body embeds an error status: carries the embedded `statusCode` and the
payload interpolated into the message
(`f"API Error {statusCode}: {error_message}"`). -/
structure EmbeddedStatusError where
  statusCode : Int
  message : JValue

/-- Embedding of the message lookup in `APIResponse.__init__`:
`self._json.get("reason", self._json.get("error", "Unknown API Error"))`. -/
def embeddedReason (fields : List (String × JValue)) : JValue :=
  match dictLookup fields "reason" with
  | some v => v
  | none =>
      match dictLookup fields "error" with
      | some v => v
      | none => JValue.str "Unknown API Error"

/-- Embedding of `APIResponse.__init__` (client.py lines 24-45).

Input: the transport status code (available on the wrapped response but
never consulted by the constructor) and the parse attempt on the body:
`none` models a body that is not valid JSON (`httpx.DecodingError`), which
is caught and leaves `self._json = {}`; `some fields` models a body parsed
to a JSON object.  If the object carries a numeric top-level `"statusCode"`
of at least 400, the constructor raises `httpx.HTTPStatusError` with the
embedded code and reason; a non-numeric `"statusCode"` makes the Python
comparison `>= 400` raise TypeError, which the generic handler catches,
resetting `self._json` to `{}` (a Python bool compares as 0 or 1 and is
below 400). -/
def APIResponse_init (transportStatus : Int)
    (body : Option (List (String × JValue))) :
    Except EmbeddedStatusError (List (String × JValue)) :=
  match body with
  | none => Except.ok []
  | some fields =>
      match dictLookup fields "statusCode" with
      | none => Except.ok fields
      | some (JValue.num n) =>
          if 400 ≤ n then Except.error ⟨n, embeddedReason fields⟩
          else Except.ok fields
      | some (JValue.bool _) => Except.ok fields
      | some _ => Except.ok []

/-! ## Operation registry (src/scanner/registry.py)

The two module-level tables
`_actions: dict[str, dict[str, Callable]]` and `_all_funcs: dict[str, Callable]`
are modelled as one state value.  The registry is polymorphic in the type of
the registered callables: the dispatcher instantiates it with `PyFunc`
below, while registry-only claims may use any carrier. -/

structure Registry (Op : Type) where
  actions : List (String × List (String × Op))
  allFuncs : List (String × Op)

def emptyRegistry {Op : Type} : Registry Op := ⟨[], []⟩

/-- Python `s.startswith(p)`, written over the character list so that it is
fully computable inside the kernel. -/
def pyStartsWith (s p : String) : Bool := p.data.isPrefixOf s.data

/-- Python `s.endswith(p)`. -/
def pyEndsWith (s p : String) : Bool := p.data.reverse.isPrefixOf s.data.reverse

/-- Python `s[n:]`. -/
def pyDrop (s : String) (n : Nat) : String := String.mk (s.data.drop n)

/-- Python `s[:-n]` for `n >= 1` (the only form the source uses: `n` is the
length of a nonempty pattern). -/
def pyDropLast (s : String) (n : Nat) : String :=
  String.mk (s.data.take (s.data.length - n))

/-- Python `len(s)`. -/
def pyLen (s : String) : Nat := s.data.length

/-- `module.split('.')[-1]` — the category a decorated function belongs to,
derived from its declaring module (registry.py lines 66-68 and 137-138):
the characters after the last dot (the whole string when it has no dot). -/
def moduleCategory (module : String) : String :=
  String.mk ((module.data.reverse.takeWhile (fun c => c ≠ '.')).reverse)

/-- Auto-derivation of an action name from the function name
(registry.py lines 74-85): for each pattern `{category}_` then `_{category}`,
strip it from the front if the name starts with it, else from the back if the
name ends with it; the first pattern that matches wins; otherwise keep the
function name. -/
def deriveActionName (category funcName : String) : String :=
  let p1 := category ++ "_"
  let p2 := "_" ++ category
  if pyStartsWith funcName p1 then pyDrop funcName (pyLen p1)
  else if pyEndsWith funcName p1 then pyDropLast funcName (pyLen p1)
  else if pyStartsWith funcName p2 then pyDrop funcName (pyLen p2)
  else if pyEndsWith funcName p2 then pyDropLast funcName (pyLen p2)
  else funcName

/-- The action name chosen by the decorator (registry.py lines 70-85):
`if name: action_name = name` — note a supplied empty string is falsy in
Python and falls through to auto-derivation, like `None`. -/
def chosenActionName (name? : Option String) (category funcName : String) : String :=
  match name? with
  | some n => if n = "" then deriveActionName category funcName else n
  | none => deriveActionName category funcName

/-- Embedding of the `action` decorator body (registry.py lines 65-92):
derive the category from the module and the action name from `name`/the
function name, then
`if category not in _actions: _actions[category] = {}` followed by
`_actions[category][action_name] = func`.  There is no duplicate check: an
existing binding for `(category, action_name)` is overwritten. -/
def action {Op : Type} (r : Registry Op) (name? : Option String)
    (module funcName : String) (f : Op) : Registry Op :=
  let category := moduleCategory module
  let aname := chosenActionName name? category funcName
  let inner := (dictLookup r.actions category).getD []
  { r with actions := dictInsert r.actions category (dictInsert inner aname f) }

/-- Embedding of the `all_action` decorator (registry.py lines 96-140):
`_all_funcs[category] = func` — last registration wins. -/
def all_action {Op : Type} (r : Registry Op) (module : String) (f : Op) : Registry Op :=
  { r with allFuncs := dictInsert r.allFuncs (moduleCategory module) f }

/-- `get_actions` (registry.py lines 143-145): `_actions.get(category, {})`. -/
def get_actions {Op : Type} (r : Registry Op) (category : String) : List (String × Op) :=
  (dictLookup r.actions category).getD []

/-- Lookup of one registered operation: `get_actions(category)[name]`
(used at cli.py lines 289-294 via `actions[action]`). -/
def getAction {Op : Type} (r : Registry Op) (category name : String) : Option Op :=
  dictLookup (get_actions r category) name

/-- `get_all_func` (registry.py lines 148-150): `_all_funcs.get(category)`. -/
def get_all_func {Op : Type} (r : Registry Op) (category : String) : Option Op :=
  dictLookup r.allFuncs category

/-- `get_categories` (registry.py lines 153-156):
`list(set(_actions.keys()) | set(_all_funcs.keys()))`.  Python iterates the
set in an unspecified order; the embedding fixes first-appearance order,
which no claim depends on. -/
def get_categories {Op : Type} (r : Registry Op) : List String :=
  ((r.actions.map (fun p => p.1)) ++ (r.allFuncs.map (fun p => p.1))).dedup

/-- `list_actions` (registry.py lines 159-164): the action names of the
category, with `"all"` inserted at position 0 when the category has a
run-all function. -/
def list_actions {Op : Type} (r : Registry Op) (category : String) : List String :=
  let names := (get_actions r category).map (fun p => p.1)
  if (get_all_func r category).isSome then "all" :: names else names

/-- Definition following the spec text of section 4.1 rather than the code,
for comparison with `action`: "register(category, name, operation) adds an
OperationDescriptor; fails with a DuplicateActionError if (category, name)
already exists", with the idempotence carve-out "re-registering the same
operation under the same key is not an error if the descriptor is
identical; only conflicting registrations are errors". -/
def register_spec {Op : Type} [DecidableEq Op] (r : Registry Op) (name? : Option String)
    (module funcName : String) (f : Op) : Except Unit (Registry Op) :=
  let category := moduleCategory module
  let aname := chosenActionName name? category funcName
  match getAction r category aname with
  | some g => if g = f then Except.ok r else Except.error ()
  | none => Except.ok (action r name? module funcName f)

/-! ## CLI layer (src/scanner/cli.py)

The dispatcher is modelled at the granularity the claims need:

* Python values returned by operations are modelled by `PyVal`; note that in
  Python a `bool` is an instance of `int`, which the embedding makes explicit
  where the source branches on `isinstance(result, int)`.
* `defopt` parsing of per-action arguments is not modelled (no claim depends
  on it); invoking an operation is modelled as yielding its fixed result
  value, and the action-argument tokens are ignored.
* Exception handling for `KeyboardInterrupt` and operation exceptions
  (cli.py lines 296-303) is outside every claim and not modelled.
* `argparse.parse_known_args` is modelled by its output: a `ParsedGlobals`
  record (with the environment-variable defaults already folded into the
  flag values, as `argparse` does via `default=os.getenv(...)`) plus the
  list of remaining positional tokens. -/

/-- A Python value as returned by an invoked operation. -/
inductive PyVal where
  | pynone
  | pybool (b : Bool)
  | pyint (n : Int)
  | model (dump : JValue)
  | pylist (items : List PyVal)
  | other (text : String)

/-- One line written to standard output by the action wrapper. -/
inductive OutLine where
  | jsonDump (j : JValue)
  | plain (s : String)

/-- Python `str()` of a value as used by `print(result)` / `print(item)`
(cli.py lines 210 and 212).  The exact rendering text is irrelevant to every
claim (which only observe whether a line is printed); unreached cases return
an empty string. -/
def pyStr : PyVal → String
  | PyVal.pynone => "None"
  | PyVal.pybool b => if b then "True" else "False"
  | PyVal.pyint n => toString n
  | PyVal.model _ => ""
  | PyVal.pylist _ => ""
  | PyVal.other s => s

/-- Rendering and exit-code logic of the wrapper body in
`create_action_wrapper` (cli.py lines 196-215):
`if result is not None and not isinstance(result, int)` — a Python `bool`
is an instance of `int`, so booleans are not printed; models print as a JSON
dump; lists print one line per element (JSON dump for model elements, plain
`print` otherwise); anything else prints as plain text.  The wrapper returns
`result if isinstance(result, int) else 0`, so a boolean is returned as its
integer value (`True` is 1) and becomes the process exit code. -/
def wrapper_run (result : PyVal) : List OutLine × Int :=
  match result with
  | PyVal.pynone => ([], 0)
  | PyVal.pybool b => ([], if b then 1 else 0)
  | PyVal.pyint n => ([], n)
  | PyVal.model j => ([OutLine.jsonDump j], 0)
  | PyVal.pylist xs =>
      (xs.map (fun x =>
        match x with
        | PyVal.model j => OutLine.jsonDump j
        | x => OutLine.plain (pyStr x)), 0)
  | PyVal.other s => ([OutLine.plain s], 0)

/-- Signature manipulation of `create_action_wrapper` (cli.py lines 186-194):
`if params and params[0].name == 'client': params = params[1:]`.  The first
parameter is removed exactly when it is named `client`; an empty parameter
list, or a first parameter with any other name, is left unchanged and no
error is raised. -/
def create_action_wrapper_params (params : List String) : List String :=
  match params with
  | [] => []
  | p :: rest => if p = "client" then rest else p :: rest

/-- Definition following the spec text of section 4.2 rather than the code,
for comparison with `create_action_wrapper_params`: "Adapter removes that
first parameter (fails with a MalformedOperationError if the parameter list
is empty or the first parameter is not identifiable as the session slot)".
In the source the only identification of the session slot is the parameter
name `client`. -/
def adapt_spec (params : List String) : Except Unit (List String) :=
  match params with
  | [] => Except.error ()
  | p :: rest => if p = "client" then Except.ok rest else Except.error ()

/-- An operation registered with the CLI: its declaring module, function
name, parameter names in declaration order, and the value its invocation
produces. -/
structure PyFunc where
  module : String
  funcName : String
  params : List String
  result : PyVal

/-- `run_action` (cli.py lines 246-249) as observed by the dispatcher:
wrap the function and execute it, yielding the wrapper's printed lines and
integer exit code.  (`defopt` argument parsing is not modelled; the invoked
function's behaviour is abstracted as its result value.) -/
def run_action (f : PyFunc) : List OutLine × Int :=
  wrapper_run f.result

/-- Output of `argparse.parse_known_args` on the global parser
(cli.py lines 65-86): `url` is the `--url` flag if given, else the
`WEKAN_URL` environment variable, else `none`; likewise `token` with
`WEKAN_API_TOKEN`. -/
structure ParsedGlobals where
  url : Option String
  verbose : Bool
  noVerifySsl : Bool
  help : Bool
  token : Option String

/-- `GlobalConfig` (cli.py lines 44-58). -/
structure GlobalConfig where
  url : String
  verbose : Bool
  verifySsl : Bool
  token : Option String

/-- How `parse_global_args` (cli.py lines 120-147) terminates. -/
inductive ParseOutcome where
  | exitHelp
  | exitNoUrl
  | ok (cfg : GlobalConfig)

/-- Embedding of `parse_global_args` (cli.py lines 120-147): the help flag
is handled first (`print_global_help` then `sys.exit(0)`); only then is an
unresolved URL reported to stderr with `sys.exit(1)`; otherwise the
`GlobalConfig` is built (`verify_ssl = not args.no_verify_ssl`).
The URL guard is Python truthiness, `if not args.url:`, which treats both
`None` (no flag, no environment default) and an empty string (an empty flag
value, or `WEKAN_URL` set but empty) as unresolved. -/
def parse_global_args (g : ParsedGlobals) : ParseOutcome :=
  if g.help then ParseOutcome.exitHelp
  else
    match g.url with
    | none => ParseOutcome.exitNoUrl
    | some u =>
        if u = "" then ParseOutcome.exitNoUrl
        else ParseOutcome.ok ⟨u, g.verbose, !g.noVerifySsl, g.token⟩

/-- One line written to standard error by the dispatcher. -/
inductive ErrLine where
  | urlRequired
  | usageNoCommand (cats : List String)
  | unknownCategory (c : String) (available : List String)
  | noRunAll (c : String)
  | unknownAction (a : String) (available : List String)

/-- Observable outcome of one `main` invocation: the process exit code, the
lines printed to stdout and stderr, the operations actually invoked in
order, and whether any Registry read (`get_categories`, `get_actions`,
`get_all_func`, `list_actions`) happened. -/
structure MainOutcome where
  exitCode : Int
  stdout : List OutLine
  stderr : List ErrLine
  invoked : List PyFunc
  registryRead : Bool

/-- Python `max(codes, default=0)`. -/
def maxDefault0 : List Int → Int
  | [] => 0
  | x :: xs => xs.foldl max x

/-- Embedding of `main` (cli.py lines 252-303); named `cli_main` because Lean reserves the name `main` for executables.  `import_all_categories`
only performs registration (a write, not a lookup) and is represented by the
`r` argument: the registry state after all category modules are imported.
The help exit prints argparse usage plus the live category/action listing
(`print_global_help`, cli.py lines 89-117, reads the registry); its text is
not itself modelled.  Branches in source order:

1. no remaining tokens: usage plus categories to stderr, exit 1;
2. first token `all`: run every category's run-all (categories without one
   are skipped by the `if (f := get_all_func(c))` filter), sequentially, and
   exit with `max(codes, default=0)`;
3. unknown category: message to stderr, exit 1;
4. action token `all` (or no action token, which defaults to `all`): run the
   category's run-all if it has one, else `NoRunAllError` message, exit 1;
5. otherwise: look the action up and run it, or report an unknown action.

The action-argument tokens `remaining[2:]` are consumed by `defopt` inside
`run_action` and do not affect the modelled observables. -/
def cli_main (g : ParsedGlobals) (remaining : List String) (r : Registry PyFunc) :
    MainOutcome :=
  match parse_global_args g with
  | ParseOutcome.exitHelp => ⟨0, [], [], [], true⟩
  | ParseOutcome.exitNoUrl => ⟨1, [], [ErrLine.urlRequired], [], false⟩
  | ParseOutcome.ok _ =>
      match remaining with
      | [] => ⟨1, [], [ErrLine.usageNoCommand (get_categories r)], [], true⟩
      | category :: rest =>
          let actionTok := rest.headD "all"
          if category = "all" then
            let toRun := (get_categories r).filterMap (fun c => get_all_func r c)
            let runs := toRun.map run_action
            ⟨maxDefault0 (runs.map (fun p => p.2)),
             (runs.map (fun p => p.1)).flatten, [], toRun, true⟩
          else if (get_categories r).contains category then
            if actionTok = "all" then
              match get_all_func r category with
              | some f => ⟨(run_action f).2, (run_action f).1, [], [f], true⟩
              | none => ⟨1, [], [ErrLine.noRunAll category], [], true⟩
            else
              match getAction r category actionTok with
              | some f => ⟨(run_action f).2, (run_action f).1, [], [f], true⟩
              | none =>
                  ⟨1, [], [ErrLine.unknownAction actionTok (list_actions r category)],
                   [], true⟩
          else ⟨1, [], [ErrLine.unknownCategory category (get_categories r)], [], true⟩

/-! ## Sample data used by witnesses and counterexamples -/

/-- A run-all function for the boards category, exiting with code 2. -/
def fBoardsAll : PyFunc :=
  ⟨"scanner.api.boards", "all", ["client"], PyVal.pyint 2⟩

/-- An ordinary action of the lists category. -/
def fListsGet : PyFunc :=
  ⟨"scanner.api.lists", "get_list", ["client", "board_id", "list_id"],
   PyVal.model (JValue.obj [])⟩

/-- An action returning the integer exit code 0 (success). -/
def fBoardsCount : PyFunc :=
  ⟨"scanner.api.boards", "get_boards_count", ["client"], PyVal.pyint 0⟩

/-- An action returning the Python boolean `True` (a successful deletion). -/
def fBoardsDelete : PyFunc :=
  ⟨"scanner.api.boards", "delete_board", ["client", "board_id"],
   PyVal.pybool true⟩

/-- Registry state with a `lists` category owning one action and no run-all,
and a `boards` category owning a run-all, as produced by the decorators. -/
def rSample : Registry PyFunc :=
  all_action
    (action emptyRegistry none "scanner.api.lists" "get_list" fListsGet)
    "scanner.api.boards" fBoardsAll

/-- Registry state with a single `boards` category owning the two ordinary
actions `get_boards_count` and `delete_board` and no run-all. -/
def rBoards : Registry PyFunc :=
  action
    (action emptyRegistry none "scanner.api.boards" "get_boards_count"
      fBoardsCount)
    none "scanner.api.boards" "delete_board" fBoardsDelete

/-- Parsed global flags with a URL supplied and no help flag. -/
def gOk : ParsedGlobals := ⟨some "http://localhost:8080", false, false, false, none⟩

/-- Parsed global flags with no URL (no flag, no environment default) and no
help flag. -/
def gNoUrl : ParsedGlobals := ⟨none, false, false, false, none⟩

/-- Parsed global flags for a bare `--help` invocation: help requested, no
URL supplied and no environment default. -/
def gHelpNoUrl : ParsedGlobals := ⟨none, false, false, true, none⟩

/-! ## Claims -/

/-- C3: for every response body and candidate-key list, `as_model`
(`extractOne`) constructs the target from the value under the first
candidate key present in the top-level mapping, and falls back to the
top-level mapping itself when no candidate key is present or the key list is
empty.  Key selection is a total function of the body and the keys: it never
raises (`as_model` is total by construction; only the abstracted model
construction can fail downstream). -/
theorem C3_extractOne_key_selection {α : Type} (fields : List (String × JValue))
    (construct : JValue → α) (keys : List String) :
    (∀ k v, keys.find? (fun k2 => (dictLookup fields k2).isSome) = some k →
      dictLookup fields k = some v →
      as_model fields construct keys = construct v) ∧
    (keys.find? (fun k2 => (dictLookup fields k2).isSome) = none →
      as_model fields construct keys = construct (JValue.obj fields)) := by
  induction keys with
  | nil =>
      refine ⟨?_, ?_⟩
      · intro k v hfind
        simp at hfind
      · intro _
        rfl
  | cons k ks ih =>
      refine ⟨?_, ?_⟩
      · intro k2 v hfind hv
        cases hd : dictLookup fields k with
        | some v0 =>
            rw [List.find?_cons_of_pos _ (by simp [hd])] at hfind
            cases hfind
            simp [as_model, hd]
            rw [hd] at hv
            cases hv
            rfl
        | none =>
            rw [List.find?_cons_of_neg _ (by simp [hd])] at hfind
            simp [as_model, hd]
            exact ih.1 k2 v hfind hv
      · intro hfind
        cases hd : dictLookup fields k with
        | some v0 =>
            rw [List.find?_cons_of_pos _ (by simp [hd])] at hfind
            cases hfind
        | none =>
            rw [List.find?_cons_of_neg _ (by simp [hd])] at hfind
            simp [as_model, hd]
            exact ih.2 hfind

/-- Witness for C3 at concrete inputs: the spec's own example.  With only
key `"b"` present, `extractOne(response, T, "a", "b")` yields the value
under `"b"`; with neither key present, it yields the top-level mapping. -/
theorem C3_extractOne_key_selection_witness :
    (["a", "b"].find?
        (fun k2 => (dictLookup [("b", JValue.num 2)] k2).isSome) = some "b") ∧
    as_model [("b", JValue.num 2)] id ["a", "b"] = JValue.num 2 ∧
    (["a", "b"].find?
        (fun k2 => (dictLookup [("c", JValue.num 3)] k2).isSome) = none) ∧
    as_model [("c", JValue.num 3)] id ["a", "b"] =
      JValue.obj [("c", JValue.num 3)] :=
  ⟨rfl,
   (C3_extractOne_key_selection [("b", JValue.num 2)] id ["a", "b"]).1
     "b" (JValue.num 2) rfl rfl,
   rfl,
   (C3_extractOne_key_selection [("c", JValue.num 3)] id ["a", "b"]).2 rfl⟩

/-- C9: for every response body and key, `as_list` (`extractMany`) returns
the ordered sequence of models constructed from the elements of the list
under the key, and returns the empty sequence — never an error — when the
key is absent from the top-level mapping. -/
theorem C9_extractMany_total (fields : List (String × JValue))
    {α : Type} (construct : JValue → α) (key : String) :
    (dictLookup fields key = none →
      as_list fields construct key = Except.ok []) ∧
    (∀ xs, dictLookup fields key = some (JValue.arr xs) →
      as_list fields construct key = Except.ok (xs.map construct)) := by
  refine ⟨?_, ?_⟩
  · intro h
    simp [as_list, h]
  · intro xs h
    simp [as_list, h]

/-- Witness for C9 at concrete inputs: a response whose key holds a
two-element list maps both elements in order, and a response without the
key yields the empty sequence. -/
theorem C9_extractMany_total_witness :
    (dictLookup [("teams", JValue.arr [JValue.num 1, JValue.num 2])] "teams" =
      some (JValue.arr [JValue.num 1, JValue.num 2])) ∧
    as_list [("teams", JValue.arr [JValue.num 1, JValue.num 2])] id "teams" =
      Except.ok [JValue.num 1, JValue.num 2] ∧
    (dictLookup [("other", JValue.num 7)] "teams" = none) ∧
    as_list [("other", JValue.num 7)] id "teams" =
      Except.ok ([] : List JValue) :=
  ⟨rfl,
   (C9_extractMany_total [("teams", JValue.arr [JValue.num 1, JValue.num 2])]
      id "teams").2 [JValue.num 1, JValue.num 2] rfl,
   rfl,
   (C9_extractMany_total [("other", JValue.num 7)] id "teams").1 rfl⟩

/-- C10: constructing an `APIResponse` from a body that is not valid JSON
never raises and leaves an empty mapping; constructing it from a valid JSON
object carrying a numeric top-level `"statusCode"` of at least 400 raises an
`HTTPStatusError` carrying that embedded status and the embedded
reason, for every transport-level status code — in particular also when the
transport indicated success (the constructor never consults
`transportStatus`). -/
theorem C10_embedded_error_detection (transportStatus : Int) :
    (APIResponse_init transportStatus none = Except.ok []) ∧
    (∀ fields n, dictLookup fields "statusCode" = some (JValue.num n) →
      400 ≤ n →
      APIResponse_init transportStatus (some fields) =
        Except.error ⟨n, embeddedReason fields⟩) := by
  refine ⟨rfl, ?_⟩
  intro fields n h hn
  simp [APIResponse_init, h, hn]

/-- Witness for C10 at concrete inputs: with transport status 200 (success)
an embedded `statusCode` of 500 raises, carrying code 500 and the embedded
reason; an invalid-JSON body yields the empty mapping. -/
theorem C10_embedded_error_detection_witness :
    (dictLookup [("statusCode", JValue.num 500), ("reason", JValue.str "boom")]
        "statusCode" = some (JValue.num 500)) ∧
    ((400 : Int) ≤ 500) ∧
    APIResponse_init 200
        (some [("statusCode", JValue.num 500), ("reason", JValue.str "boom")]) =
      Except.error ⟨500, JValue.str "boom"⟩ ∧
    APIResponse_init 200 none = Except.ok [] :=
  ⟨rfl, by decide,
   (C10_embedded_error_detection 200).2
     [("statusCode", JValue.num 500), ("reason", JValue.str "boom")] 500 rfl
     (by decide),
   (C10_embedded_error_detection 200).1⟩

/-! ## Registry lemmas -/

/-- Looking up a key just written by `dictInsert` yields the written value. -/
theorem dictLookup_dictInsert_self {α : Type} (d : List (String × α))
    (k : String) (v : α) : dictLookup (dictInsert d k v) k = some v := by
  induction d with
  | nil => simp [dictInsert, dictLookup]
  | cons p rest ih =>
      obtain ⟨k2, v2⟩ := p
      by_cases h : k2 = k
      · subst h
        simp [dictInsert, dictLookup]
      · simp only [dictInsert, if_neg h]
        simp only [dictLookup] at ih ⊢
        rw [List.find?_cons_of_neg _ (by simp [h])]
        exact ih

/-- C1 (amended part): registering an operation makes it the one returned by
lookup of its `(category, action name)` key — for a fresh key and equally
for an already-registered key, whose previous operation is silently
overwritten (last-registration-wins; the code performs no duplicate check
and raises no error, `action` being a total function on registry states). -/
theorem C1_register_last_wins {Op : Type} (r : Registry Op)
    (name? : Option String) (module funcName : String) (f : Op) :
    getAction (action r name? module funcName f) (moduleCategory module)
      (chosenActionName name? (moduleCategory module) funcName) = some f := by
  have h1 : (action r name? module funcName f).actions =
      dictInsert r.actions (moduleCategory module)
        (dictInsert ((dictLookup r.actions (moduleCategory module)).getD [])
          (chosenActionName name? (moduleCategory module) funcName) f) := rfl
  unfold getAction get_actions
  rw [h1, dictLookup_dictInsert_self, Option.getD_some]
  exact dictLookup_dictInsert_self _ _ _

/-- C1 (counterexample): registering the key `(boards, list)` twice with two
different operations raises no error — `action` is total — and afterwards
lookup returns the second operation, not the first one that was successfully
registered, contradicting the claimed DuplicateActionError and the claimed
lookup guarantee.  The spec-following `register_spec` rejects the very same
second registration. -/
theorem C1_counterexample_duplicate_overwrites :
    getAction
        (action (action (emptyRegistry : Registry Nat) none
            "scanner.api.boards" "list_boards" 1)
          none "scanner.api.boards" "list_boards" 2) "boards" "list" = some 2 ∧
    getAction
        (action (action (emptyRegistry : Registry Nat) none
            "scanner.api.boards" "list_boards" 1)
          none "scanner.api.boards" "list_boards" 2) "boards" "list" ≠ some 1 ∧
    register_spec (action (emptyRegistry : Registry Nat) none
        "scanner.api.boards" "list_boards" 1)
      none "scanner.api.boards" "list_boards" 2 = Except.error () :=
  ⟨rfl, by decide, rfl⟩

/-- C8 (amended part): for every registry state and category, a category
with a run-all function lists `"all"` first, followed by its registered
action names in registration order; for a category without a run-all,
`"all"` is listed exactly when an action was explicitly registered under
the literal name `"all"` (no such registration exists in this repository's
category modules). -/
theorem C8_list_actions_all_first {Op : Type} (r : Registry Op) (c : String) :
    ((get_all_func r c).isSome →
      list_actions r c = "all" :: (get_actions r c).map (fun p => p.1)) ∧
    (get_all_func r c = none →
      ("all" ∈ list_actions r c ↔
        "all" ∈ (get_actions r c).map (fun p => p.1))) := by
  refine ⟨?_, ?_⟩
  · intro h
    simp [list_actions, h]
  · intro h
    simp [list_actions, h]

/-- Registry in which the lists category registered an ordinary action under
the explicit name `all` — a legal use of the decorator, `action("all")` —
and owns no run-all function. -/
def rAllNamed : Registry Nat :=
  action emptyRegistry (some "all") "scanner.api.lists" "run_everything" 7

/-- C8 (counterexample): in `rAllNamed` the lists category has no run-all
function, yet `list_actions` lists `"all"`, contradicting the claim that
`"all"` does not appear for a category without a run-all. -/
theorem C8_counterexample_action_named_all :
    get_all_func rAllNamed "lists" = none ∧
    list_actions rAllNamed "lists" = ["all"] :=
  ⟨rfl, rfl⟩

/-- Witness for C8 at a concrete registry: the boards category of `rSample`
has a run-all and no ordinary actions, so its listing is exactly
`["all"]`; the lists category has no run-all and its listing `["get_list"]`
contains `"all"` exactly as often as its action names do (never). -/
theorem C8_list_actions_all_first_witness :
    (get_all_func rSample "boards").isSome ∧
    list_actions rSample "boards" =
      "all" :: (get_actions rSample "boards").map (fun p => p.1) ∧
    get_all_func rSample "lists" = none ∧
    ("all" ∈ list_actions rSample "lists" ↔
      "all" ∈ (get_actions rSample "lists").map (fun p => p.1)) :=
  ⟨rfl, (C8_list_actions_all_first rSample "boards").1 rfl, rfl,
   (C8_list_actions_all_first rSample "lists").2 rfl⟩

/-- C2 (amended part): the signature adapter never fails.  It removes the
first parameter exactly when that parameter is named `client` (the session
slot); an empty parameter list, or a first parameter under any other name,
is passed through unchanged with no error.  For a well-formed operation —
first parameter `client`, a name Python signatures cannot repeat later —
the resulting schema does not contain the session parameter. -/
theorem C2_adapter_strips_client_only (p : String) (rest : List String) :
    create_action_wrapper_params ("client" :: rest) = rest ∧
    (p ≠ "client" → create_action_wrapper_params (p :: rest) = p :: rest) ∧
    create_action_wrapper_params [] = [] ∧
    ("client" ∉ rest →
      "client" ∉ create_action_wrapper_params ("client" :: rest)) := by
  refine ⟨rfl, ?_, rfl, ?_⟩
  · intro h
    simp [create_action_wrapper_params, h]
  · intro h
    simpa [create_action_wrapper_params] using h

/-- C2 (counterexample): adapting an operation whose only parameter is
`limit` (first parameter not the session slot), or whose parameter list is
empty, does not fail — the adapter returns the parameter list unchanged —
while the spec-following `adapt_spec` rejects both inputs with
MalformedOperationError. -/
theorem C2_counterexample_no_malformed_error :
    create_action_wrapper_params ["limit"] = ["limit"] ∧
    adapt_spec ["limit"] = Except.error () ∧
    create_action_wrapper_params [] = [] ∧
    adapt_spec [] = Except.error () := by
  refine ⟨?_, ?_, rfl, rfl⟩ <;> simp [create_action_wrapper_params, adapt_spec]

/-- Witness for C2 at concrete inputs: a non-session first parameter passes
through unchanged, and a stripped well-formed signature contains no
`client`. -/
theorem C2_adapter_strips_client_only_witness :
    ("limit" ≠ "client") ∧
    create_action_wrapper_params ["limit", "board_id"] = ["limit", "board_id"] ∧
    ("client" ∉ ["board_id"]) ∧
    "client" ∉ create_action_wrapper_params ["client", "board_id"] :=
  ⟨by decide,
   (C2_adapter_strips_client_only "limit" ["board_id"]).2.1 (by decide),
   by decide,
   (C2_adapter_strips_client_only "limit" ["board_id"]).2.2.2 (by decide)⟩

/-! ## Dispatcher claims -/

/-- C5: when the first command token is the literal `all`, `main` executes
the run-all function of every category that has one (in the order the
categories are enumerated, one after the other — the `invoked` list records
the sequential execution order), skips categories without one, and exits
with the maximum of the executed run-alls' exit codes, or 0 when no category
has a run-all function. -/
theorem C5_run_all_categories (g : ParsedGlobals) (r : Registry PyFunc)
    (rest : List String) (hh : g.help = false)
    (hu : ∃ u, g.url = some u ∧ u ≠ "") :
    (cli_main g ("all" :: rest) r).invoked =
      (get_categories r).filterMap (fun c => get_all_func r c) ∧
    (cli_main g ("all" :: rest) r).exitCode =
      maxDefault0
        (((get_categories r).filterMap (fun c => get_all_func r c)).map
          (fun f => (run_action f).2)) ∧
    ((∀ c ∈ get_categories r, get_all_func r c = none) →
      (cli_main g ("all" :: rest) r).exitCode = 0) := by
  obtain ⟨u, hu, hne⟩ := hu
  refine ⟨?_, ?_, ?_⟩
  · simp [cli_main, parse_global_args, hh, hu, hne]
  · simp [cli_main, parse_global_args, hh, hu, hne, List.map_map,
      Function.comp_def]
  · intro hnone
    simp [cli_main, parse_global_args, hh, hu, hne,
      List.filterMap_eq_nil_iff.mpr hnone, maxDefault0]

/-- Witness for C5 at a concrete command line: in `rSample` only the boards
category has a run-all (exit code 2); the lists category is skipped; the
dispatcher invokes exactly the boards run-all and exits 2. -/
theorem C5_run_all_categories_witness :
    gOk.help = false ∧
    (gOk.url = some "http://localhost:8080" ∧ "http://localhost:8080" ≠ "") ∧
    (cli_main gOk ["all"] rSample).invoked =
      (get_categories rSample).filterMap (fun c => get_all_func rSample c) ∧
    (cli_main gOk ["all"] rSample).invoked = [fBoardsAll] ∧
    (cli_main gOk ["all"] rSample).exitCode = 2 :=
  ⟨rfl, ⟨rfl, by decide⟩,
   (C5_run_all_categories gOk rSample [] rfl ⟨_, rfl, by decide⟩).1, rfl, rfl⟩

/-- C6: for a registered category without a run-all function, an action
token that is literally `all` — or no action token at all, which defaults to
`all` — makes `main` report the NoRunAllError message to stderr and exit 1
without invoking any operation. -/
theorem C6_no_run_all_error (g : ParsedGlobals) (r : Registry PyFunc)
    (c : String) (rest : List String)
    (hh : g.help = false) (hu : ∃ u, g.url = some u ∧ u ≠ "")
    (hc : c ≠ "all") (hreg : (get_categories r).contains c = true)
    (ha : rest.headD "all" = "all") (hno : get_all_func r c = none) :
    cli_main g (c :: rest) r = ⟨1, [], [ErrLine.noRunAll c], [], true⟩ := by
  obtain ⟨u, hu, hne⟩ := hu
  have hmem : c ∈ get_categories r := by
    simpa using hreg
  have ha2 : rest.head?.getD "all" = "all" := by
    rw [← List.headD_eq_head?_getD]
    exact ha
  simp [cli_main, parse_global_args, hh, hu, hne, hc, hmem, ha2, hno]

/-- Witness for C6 at the spec's own scenario: `dispatch(["lists", "all"])`
with lists lacking a run-all exits 1 with the NoRunAllError message and
invokes nothing. -/
theorem C6_no_run_all_error_witness :
    (get_categories rSample).contains "lists" = true ∧
    get_all_func rSample "lists" = none ∧
    cli_main gOk ["lists", "all"] rSample =
      ⟨1, [], [ErrLine.noRunAll "lists"], [], true⟩ :=
  ⟨rfl, rfl,
   C6_no_run_all_error gOk rSample "lists" ["all"] rfl ⟨_, rfl, by decide⟩
     (by decide) rfl rfl rfl⟩

/-- C7 (amended part): for every command line whose parsed global flags do
not request help, if no endpoint URL was supplied by flag and no environment
default exists, `main` exits 1 with the usage message on stderr, performs no
Registry lookup and invokes no operation. -/
theorem C7_usage_error_before_lookup (g : ParsedGlobals)
    (remaining : List String) (r : Registry PyFunc)
    (hh : g.help = false) (hu : g.url = none) :
    cli_main g remaining r = ⟨1, [], [ErrLine.urlRequired], [], false⟩ := by
  simp [cli_main, parse_global_args, hh, hu]

/-- C7 (counterexample): the command line `--help` supplies no endpoint URL
(and no environment default exists), yet `main` exits 0 — the help flag is
handled before the URL check — and the help path does read the Registry
(`print_global_help` calls `get_categories` and `list_actions`),
contradicting both the claimed exit code 1 and the claimed absence of
Registry lookups for every such command line. -/
theorem C7_counterexample_help_without_url :
    gHelpNoUrl.url = none ∧
    (cli_main gHelpNoUrl [] rSample).exitCode = 0 ∧
    (cli_main gHelpNoUrl [] rSample).registryRead = true :=
  ⟨rfl, rfl, rfl⟩

/-- Witness for C7 at a concrete command line: with no URL and no help flag
the dispatcher exits 1 with the usage message, reading nothing from the
Registry and invoking nothing. -/
theorem C7_usage_error_before_lookup_witness :
    gNoUrl.help = false ∧ gNoUrl.url = none ∧
    cli_main gNoUrl ["boards", "list"] rSample =
      ⟨1, [], [ErrLine.urlRequired], [], false⟩ :=
  ⟨rfl, rfl,
   C7_usage_error_before_lookup gNoUrl ["boards", "list"] rSample rfl rfl⟩

/-- C4 (amended part): a boolean or integer result of an invoked action is
never printed; the wrapper returns the result itself as the exit code, a
Python boolean being an instance of `int` with integer value 1 for `True`
and 0 for `False`.  Hence an integer 0 (success) exits 0, but a boolean
`True` (success) exits 1 and `False` exits 0. -/
theorem C4_bool_int_results (g : ParsedGlobals) (r : Registry PyFunc)
    (c a : String) (f : PyFunc)
    (hh : g.help = false) (hu : ∃ u, g.url = some u ∧ u ≠ "")
    (hc : c ≠ "all") (ha : a ≠ "all")
    (hreg : (get_categories r).contains c = true)
    (hf : getAction r c a = some f) :
    (∀ n, f.result = PyVal.pyint n →
      (cli_main g [c, a] r).stdout = [] ∧ (cli_main g [c, a] r).exitCode = n) ∧
    (∀ b, f.result = PyVal.pybool b →
      (cli_main g [c, a] r).stdout = [] ∧
      (cli_main g [c, a] r).exitCode = (if b then 1 else 0)) := by
  obtain ⟨u, hu, hne⟩ := hu
  have hmem : c ∈ get_categories r := by
    simpa using hreg
  have hm : cli_main g [c, a] r =
      ⟨(run_action f).2, (run_action f).1, [], [f], true⟩ := by
    simp [cli_main, parse_global_args, hh, hu, hne, hc, ha, hmem, hf]
  refine ⟨?_, ?_⟩
  · intro n hn
    rw [hm]
    simp [run_action, wrapper_run, hn]
  · intro b hb
    rw [hm]
    simp [run_action, wrapper_run, hb]

/-- C4 (counterexample): the `delete_board` action reports success with the
Python boolean `True`; the dispatcher prints nothing but exits with code 1
(the integer value of `True`), not 0 — success is not mapped to exit 0 for
boolean results. -/
theorem C4_counterexample_true_exits_1 :
    fBoardsDelete.result = PyVal.pybool true ∧
    (cli_main gOk ["boards", "delete_board"] rBoards).stdout = [] ∧
    (cli_main gOk ["boards", "delete_board"] rBoards).exitCode = 1 :=
  ⟨rfl, rfl, rfl⟩

/-- Witness for C4 at a concrete command line: an action returning the
integer 0 (success) prints nothing and exits 0. -/
theorem C4_bool_int_results_witness :
    getAction rBoards "boards" "get_boards_count" = some fBoardsCount ∧
    fBoardsCount.result = PyVal.pyint 0 ∧
    (cli_main gOk ["boards", "get_boards_count"] rBoards).stdout = [] ∧
    (cli_main gOk ["boards", "get_boards_count"] rBoards).exitCode = 0 :=
  ⟨rfl, rfl,
   ((C4_bool_int_results gOk rBoards "boards" "get_boards_count" fBoardsCount
       rfl ⟨_, rfl, by decide⟩ (by decide) (by decide) rfl rfl).1 0 rfl).1,
   ((C4_bool_int_results gOk rBoards "boards" "get_boards_count" fBoardsCount
       rfl ⟨_, rfl, by decide⟩ (by decide) (by decide) rfl rfl).1 0 rfl).2⟩
